import Mathlib

/-!
Shallow embedding of the kioto-serial crate's non-platform-specific core
(src/posix.rs): the error/termination model (NeverOk, Error, to_std_io,
flatten), the builder (new, max_buf_size), the two blocking relay loops
(reader, writer) run over finite traces of device/pipe events, and the
non-blocking facade (SerialStream with poll_read, poll_write, poll_flush,
poll_shutdown) over a model of the bounded duplex pipe and the one-shot
termination-signal observations.

External collaborators (the tokio duplex pipe, the oneshot channels, the
serialport device driver) are modelled by the contracts the crate consumes:
the pipe is a bounded FIFO byte buffer whose write side accepts up to the
free capacity and reports pending when full; the termination-signal future
(a oneshot receiver mapped through flatten) is pending until the relay
thread's result is delivered, yields that result at the first poll that
observes it, and panics if polled again after returning ready — the
single-poll view is OneshotObs, the faithful multi-poll state machine with
the panic is OneshotFut.
-/

namespace KiotoSerial

/-- Error kinds of the ambient I/O error type (std::io::ErrorKind); only the
kinds the crate's code paths touch are distinguished, all others are carried
by the corresponding constructor. -/
inductive ErrorKind
  | other
  | brokenPipe
  | permissionDenied
  | wouldBlock
  | timedOut
  | notFound
  deriving DecidableEq, Repr

/-- The ambient I/O error type (std::io::Error): an error kind plus a
message. std::io::Error::new(kind, msg) builds one; a driver error arrives
already carrying its kind. -/
structure IoError where
  kind : ErrorKind
  msg : String
  deriving DecidableEq, Repr

/-- tokio::sync::oneshot::error::RecvError: the sending half of the oneshot
channel was dropped without sending (the relay thread died without
delivering its result). Its Display text is "channel closed". -/
inductive RecvError
  | mk
  deriving DecidableEq, Repr

/-- Display text of RecvError (external: tokio). -/
def RecvError.fmt : RecvError → String
  | .mk => "channel closed"

/-- A zero-sized type which is never created to indicate that Ok(_) never
happens (enum NeverOk {} in src/posix.rs). -/
inductive NeverOk

/-- Eliminate an impossible NeverOk value. -/
def NeverOk.elim {α : Sort _} (never : NeverOk) : α := nomatch never

/-- The assert_never! guard of src/posix.rs: consumes a NeverOk and
declares the continuation unreachable. -/
def assert_never {α : Sort _} (never : NeverOk) : α := never.elim

/-- The crate's internal Error enum: a device/pipe I/O error, a oneshot
receive failure, or the distinguished sender-closed failure. -/
inductive Error
  | Io (e : IoError)
  | OneshotRecv (e : RecvError)
  | SenderClosed
  deriving DecidableEq, Repr

/-- Display text of Error as produced by the thiserror derive in
src/posix.rs: "IO error {0}", "sending thread paniced {0}",
"sending channel closed". -/
def Error.fmt : Error → String
  | .Io e => "IO error " ++ e.msg
  | .OneshotRecv e => "sending thread paniced " ++ e.fmt
  | .SenderClosed => "sending channel closed"

/-- Rust Result<T, E>: Except E T with .ok and .error. -/
abbrev RustResult (T E : Type) := Except E T

/-- fn to_std_io of src/posix.rs: convert the crate's Result type to the
Result of std::io. Ok(never) hits the assert_never guard; Error::Io(e)
passes e through unchanged; any other Error becomes a new I/O error of kind
Other carrying the Display text of the Error. -/
def to_std_io {T : Type} : RustResult NeverOk Error → RustResult T IoError
  | .ok never => assert_never never
  | .error (Error.Io e) => .error e
  | .error other => .error ⟨ErrorKind.other, other.fmt⟩

/-- fn flatten of src/posix.rs: flatten the oneshot receive result
Result<Result<NeverOk, Error>, RecvError> into Result<NeverOk, Error>,
turning a receive failure into Error::OneshotRecv. -/
def flatten (full : RustResult (RustResult NeverOk Error) RecvError) :
    RustResult NeverOk Error :=
  match full with
  | .ok res => res
  | .error e => .error (Error.OneshotRecv e)

/-- struct SerialPortBuilder of src/posix.rs: device path, baud rate and
the internal pipe capacity. -/
structure SerialPortBuilder where
  path : String
  baud_rate : Nat
  max_buf_size : Nat
  deriving DecidableEq, Repr

/-- fn new of src/posix.rs: build a SerialPortBuilder from a path and a
baud rate, with max_buf_size defaulted to 1024. -/
def new (path : String) (baud_rate : Nat) : SerialPortBuilder :=
  { path := path, baud_rate := baud_rate, max_buf_size := 1024 }

/-- SerialPortBuilder::max_buf_size of src/posix.rs: replace the
max_buf_size field, keeping the rest of the builder (struct-update syntax
Self { max_buf_size, ..self }). Named with_max_buf_size here because the
field projection already carries the source's name. -/
def SerialPortBuilder.with_max_buf_size (self : SerialPortBuilder)
    (max_buf_size : Nat) : SerialPortBuilder :=
  { self with max_buf_size := max_buf_size }

/-- One blocking device-read event observed by the reader loop: either the
driver deposited data at the start of the 1024-byte buffer and returned
sz = data.length, or the read returned an error. -/
inductive DevRead
  | ok (data : List Nat)
  | err (e : IoError)
  deriving DecidableEq, Repr

/-- State of the reader loop: the reusable read buffer and the chunks
forwarded into the pipe so far (the pipe writes tx.write_all performed). -/
structure ReaderState where
  buffer : List Nat
  forwarded : List (List Nat)
  deriving DecidableEq, Repr

/-- Outcome of running the reader loop over a finite trace of device-read
events: still looping (the trace ran out with no error), or terminated with
the loop's Err value. -/
inductive ReaderOutcome
  | running (st : ReaderState)
  | failed (e : Error) (st : ReaderState)
  deriving DecidableEq, Repr

/-- One iteration of fn reader of src/posix.rs: let sz = port.read(&mut
buffer)? then block_on(tx.write_all(&buffer[..sz]))?. A successful read of
data overwrites the first data.length bytes of the buffer and sz is
data.length, so the forwarded chunk is the prefix buffer[..sz] of the
updated buffer. Either fallible call maps its I/O error into Error::Io via
the question-mark operator. -/
def reader_step (pipe : List Nat → RustResult Unit IoError)
    (st : ReaderState) : DevRead → RustResult ReaderState Error
  | .err e => .error (Error.Io e)
  | .ok data =>
      let buffer := data ++ st.buffer.drop data.length
      let chunk := buffer.take data.length
      match pipe chunk with
      | .error e => .error (Error.Io e)
      | .ok _ => .ok { buffer := buffer, forwarded := st.forwarded ++ [chunk] }

/-- The reader loop of src/posix.rs run over a finite trace of device-read
events: loop { ... } has no exit other than the question-mark operator, so
the run is .running when the trace is exhausted and .failed at the first
erring iteration. -/
def reader_run (pipe : List Nat → RustResult Unit IoError)
    (st : ReaderState) : List DevRead → ReaderOutcome
  | [] => .running st
  | ev :: rest =>
      match reader_step pipe st ev with
      | .error e => .failed e st
      | .ok st2 => reader_run pipe st2 rest

/-- fn reader of src/posix.rs: start from let mut buffer = vec![0u8; 1024]
with nothing forwarded yet, and loop over the device-read trace. -/
def reader (pipe : List Nat → RustResult Unit IoError)
    (trace : List DevRead) : ReaderOutcome :=
  reader_run pipe { buffer := List.replicate 1024 0, forwarded := [] } trace

/-- The payloads of the successful device reads of a trace, in order. -/
def okDatas (trace : List DevRead) : List (List Nat) :=
  trace.filterMap fun ev =>
    match ev with
    | .ok data => some data
    | .err _ => none

/-- One item the writer loop pulls from its tokio_util ReaderStream: rx.next()
yields Some(Ok(bytes)), Some(Err(e)), or None when the pipe was closed by its
producer; a finite list models the stream with the end of the list standing
for None. -/
inductive PipeItem
  | chunk (data : List Nat)
  | fail (e : IoError)
  deriving DecidableEq, Repr

/-- fn writer of src/posix.rs: while let Some(buf) = block_on(rx.next())
{ let buf = buf?; port.write_all(&buf[..])? } then Err(Error::SenderClosed).
The device is modelled by the result its blocking write_all returns on each
chunk. -/
def writer (dev : List Nat → RustResult Unit IoError) :
    List PipeItem → RustResult NeverOk Error
  | [] => .error Error.SenderClosed
  | .fail e :: _ => .error (Error.Io e)
  | .chunk data :: rest =>
      match dev data with
      | .error e => .error (Error.Io e)
      | .ok _ => writer dev rest

/-- Whether every item of the stream is a chunk the device write accepted:
exactly the runs of the writer loop that reach the end of the stream. -/
def writer_accepts_all (dev : List Nat → RustResult Unit IoError) :
    List PipeItem → Bool
  | [] => true
  | .fail _ :: _ => false
  | .chunk data :: rest =>
      match dev data with
      | .error _ => false
      | .ok _ => writer_accepts_all dev rest

/-- Poll<T> of the task system: pending or ready with a value. -/
inductive Poll (α : Type)
  | pending
  | ready (val : α)
  deriving DecidableEq, Repr

/-- The I/O error a tokio duplex write side reports once closed. -/
def brokenPipeError : IoError := ⟨ErrorKind.brokenPipe, "Channel closed"⟩

/-- The facade's write-side endpoint of the bounded duplex pipe (external
collaborator, modelled by its contract): a FIFO byte buffer bounded by the
capacity chosen at tokio::io::duplex(max_buf_size), plus whether the pipe
has been closed. -/
structure PipeWriteSide where
  capacity : Nat
  buffered : List Nat
  closed : Bool
  deriving DecidableEq, Repr

/-- Contract of the duplex write side's poll_write: error if closed; pending
if the buffer is at capacity; otherwise accept min(buf.length, free
capacity) bytes into the buffer and return that count. -/
def PipeWriteSide.poll_write (p : PipeWriteSide) (buf : List Nat) :
    Poll (RustResult Nat IoError) × PipeWriteSide :=
  if p.closed then (.ready (.error brokenPipeError), p)
  else if p.capacity ≤ p.buffered.length then (.pending, p)
  else
    let n := min buf.length (p.capacity - p.buffered.length)
    (.ready (.ok n), { p with buffered := p.buffered ++ buf.take n })

/-- Contract of the duplex write side's poll_flush: the in-memory pipe has
nothing to flush, so it is always ready with success. -/
def PipeWriteSide.poll_flush (p : PipeWriteSide) :
    Poll (RustResult Unit IoError) × PipeWriteSide :=
  (.ready (.ok ()), p)

/-- Contract of the duplex write side's poll_shutdown: close the pipe and
report success. -/
def PipeWriteSide.poll_shutdown (p : PipeWriteSide) :
    Poll (RustResult Unit IoError) × PipeWriteSide :=
  (.ready (.ok ()), { p with closed := true })

/-- The writer relay thread draining k bytes from the pipe buffer (the
consumer side of the facade's write-side endpoint). -/
def PipeWriteSide.consume (p : PipeWriteSide) (k : Nat) : PipeWriteSide :=
  { p with buffered := p.buffered.drop k }

/-- The facade's read-side endpoint of the bounded duplex pipe (external
collaborator, modelled by its contract): the bytes the reader relay thread
has forwarded and not yet consumed, plus whether the far write end closed. -/
structure PipeReadSide where
  buffered : List Nat
  write_closed : Bool
  deriving DecidableEq, Repr

/-- Contract of the duplex read side's poll_read into a caller buffer of
capacity cap: pending when nothing is buffered and the far end is open;
ready with zero bytes (end of stream) when nothing is buffered and the far
end closed; otherwise ready with the first min(cap, buffered) bytes. -/
def PipeReadSide.poll_read (p : PipeReadSide) (cap : Nat) :
    Poll (RustResult (List Nat) IoError) × PipeReadSide :=
  if p.buffered.isEmpty then
    if p.write_closed then (.ready (.ok []), p) else (.pending, p)
  else
    (.ready (.ok (p.buffered.take cap)), { p with buffered := p.buffered.drop cap })

instance : DecidableEq NeverOk := fun a _ => a.elim

instance : DecidableEq (RustResult NeverOk Error) := fun a b =>
  match a, b with
  | .ok x, _ => x.elim
  | .error _, .ok y => y.elim
  | .error e1, .error e2 => decidable_of_iff (e1 = e2) (by simp)

/-- The facade's view of one termination channel composed with flatten (the
field read_err or write_err of SerialStream is a oneshot receiver mapped
through flatten), as seen by a single poll: still pending, or resolved with
the relay thread's delivered result. The underlying future has no cache and
panics if polled again after it returned ready, so a resolved state is
meaningful for one poll only; OneshotFut below is the faithful multi-poll
state machine. -/
inductive OneshotObs
  | pending
  | resolved (res : RustResult NeverOk Error)
  deriving DecidableEq

/-- One poll of a termination-signal observation: a pending observation
reports pending, a resolved observation yields the delivered value (this is
the first and only legal poll in that state). -/
def OneshotObs.poll : OneshotObs → Poll (RustResult NeverOk Error)
  | .pending => .pending
  | .resolved res => .ready res

/-- struct SerialStream of src/posix.rs: the two termination-signal
observations and the two facade-side pipe endpoints. -/
structure SerialStream where
  read_err : OneshotObs
  write_err : OneshotObs
  reader_duplex : PipeReadSide
  writer_duplex : PipeWriteSide
  deriving DecidableEq

/-- poll_read of impl AsyncRead for SerialStream: poll the reader thread's
termination observation; on Pending delegate to the reader-side pipe
endpoint; on Ready(res) return Ready(to_std_io(res)). -/
def SerialStream.poll_read (s : SerialStream) (cap : Nat) :
    Poll (RustResult (List Nat) IoError) × SerialStream :=
  match s.read_err.poll with
  | .pending =>
      let pr := s.reader_duplex.poll_read cap
      (pr.fst, { s with reader_duplex := pr.snd })
  | .ready res => (.ready (to_std_io res), s)

/-- poll_write of impl AsyncWrite for SerialStream: poll the writer thread's
termination observation; on Pending delegate to the writer-side pipe
endpoint; on Ready(res) return Ready(to_std_io(res)). -/
def SerialStream.poll_write (s : SerialStream) (buf : List Nat) :
    Poll (RustResult Nat IoError) × SerialStream :=
  match s.write_err.poll with
  | .pending =>
      let pw := s.writer_duplex.poll_write buf
      (pw.fst, { s with writer_duplex := pw.snd })
  | .ready res => (.ready (to_std_io res), s)

/-- poll_flush of impl AsyncWrite for SerialStream: same precedence as
poll_write, delegating to the pipe endpoint's flush. -/
def SerialStream.poll_flush (s : SerialStream) :
    Poll (RustResult Unit IoError) × SerialStream :=
  match s.write_err.poll with
  | .pending =>
      let pf := s.writer_duplex.poll_flush
      (pf.fst, { s with writer_duplex := pf.snd })
  | .ready res => (.ready (to_std_io res), s)

/-- poll_shutdown of impl AsyncWrite for SerialStream: same precedence as
poll_write, delegating to the pipe endpoint's shutdown. -/
def SerialStream.poll_shutdown (s : SerialStream) :
    Poll (RustResult Unit IoError) × SerialStream :=
  match s.write_err.poll with
  | .pending =>
      let ps := s.writer_duplex.poll_shutdown
      (ps.fst, { s with writer_duplex := ps.snd })
  | .ready res => (.ready (to_std_io res), s)

/-- Faithful multi-poll state of the read_err/write_err future of
src/posix.rs (a tokio oneshot Receiver composed with the futures Map
combinator applying flatten): pending, resolved with a delivered result not
yet observed, or consumed by a poll that already returned ready. Neither
primitive caches its output: Map panics with "Map must not be polled after
it returned Poll::Ready" and the receiver panics with "called after
complete" when polled again. -/
inductive OneshotFut
  | pending
  | resolved (res : RustResult NeverOk Error)
  | consumed
  deriving DecidableEq

/-- One poll of the termination future: pending stays pending, a resolved
future yields its value once and becomes consumed, and polling a consumed
future panics — modelled as none (the poll has no result). -/
def OneshotFut.poll :
    OneshotFut → Option (Poll (RustResult NeverOk Error) × OneshotFut)
  | .pending => some (.pending, .pending)
  | .resolved res => some (.ready res, .consumed)
  | .consumed => none

/-- The facade state over the faithful future model: as SerialStream, but
the two termination futures carry their consumed-after-ready state. -/
structure SerialStreamFut where
  read_err : OneshotFut
  write_err : OneshotFut
  reader_duplex : PipeReadSide
  writer_duplex : PipeWriteSide
  deriving DecidableEq

/-- poll_read over the faithful future model: poll read_err first; none
models the panic raised when the future is polled after it already returned
ready. -/
def SerialStreamFut.poll_read (s : SerialStreamFut) (cap : Nat) :
    Option (Poll (RustResult (List Nat) IoError) × SerialStreamFut) :=
  match s.read_err.poll with
  | none => none
  | some (.pending, f) =>
      let pr := s.reader_duplex.poll_read cap
      some (pr.fst, { s with read_err := f, reader_duplex := pr.snd })
  | some (.ready res, f) => some (.ready (to_std_io res), { s with read_err := f })

/-- The I/O error to_std_io reports for a termination result (the result is
never Ok, NeverOk being uninhabited). -/
def errOf : RustResult NeverOk Error → IoError
  | .ok never => never.elim
  | .error (Error.Io e) => e
  | .error other => ⟨ErrorKind.other, other.fmt⟩

/-- A sample facade state over the faithful future model whose reader
thread has delivered Err(Io(timed out)), for evaluating repeated polls of a
failed direction at a concrete input. -/
def sampleFailedFutStream : SerialStreamFut :=
  { read_err := OneshotFut.resolved (.error (Error.Io ⟨ErrorKind.timedOut, "device timed out"⟩)),
    write_err := OneshotFut.pending,
    reader_duplex := { buffered := [], write_closed := false },
    writer_duplex := { capacity := 4, buffered := [], closed := false } }

/-- A sample healthy facade state: both termination observations pending and
an empty open pipe of capacity 4. -/
def sampleLiveStream : SerialStream :=
  { read_err := OneshotObs.pending,
    write_err := OneshotObs.pending,
    reader_duplex := { buffered := [], write_closed := false },
    writer_duplex := { capacity := 4, buffered := [], closed := false } }

theorem to_std_io_eq_errOf {T : Type} (res : RustResult NeverOk Error) :
    @to_std_io T res = .error (errOf res) := by
  match res with
  | .ok never => exact never.elim
  | .error (Error.Io e) => rfl
  | .error (Error.OneshotRecv e) => rfl
  | .error Error.SenderClosed => rfl

/-- C9: new(path, baud_rate) constructs a builder whose pipe capacity
defaults to 1024, and the max_buf_size builder method returns a builder with
the given capacity while leaving the path and baud-rate fields unchanged. -/
theorem builder_defaults_and_update (path : String) (baud_rate : Nat)
    (b : SerialPortBuilder) (cap : Nat) :
    (new path baud_rate).path = path ∧
    (new path baud_rate).baud_rate = baud_rate ∧
    (new path baud_rate).max_buf_size = 1024 ∧
    (b.with_max_buf_size cap).max_buf_size = cap ∧
    (b.with_max_buf_size cap).path = b.path ∧
    (b.with_max_buf_size cap).baud_rate = b.baud_rate :=
  ⟨rfl, rfl, rfl, rfl, rfl, rfl⟩

/-- C7: the relay threads' success type NeverOk has no constructors, so an
Ok termination result is statically uninhabited; consequently the
assert_never guard in to_std_io can never execute and the conversion always
returns an error value. -/
theorem never_ok_uninhabited : (∀ _never : NeverOk, False) ∧
    ∀ (T : Type) (res : RustResult NeverOk Error),
      ∃ e : IoError, @to_std_io T res = .error e := by
  refine ⟨fun never => never.elim, fun T res => ?_⟩
  exact ⟨errOf res, to_std_io_eq_errOf res⟩

/-- C5: error conversion of delivered termination results: a plain device
I/O error maps through unchanged (kind preserved); a termination-channel
receive failure maps to a generic error of kind Other with a descriptive
message; the sender-closed failure maps to a generic error of kind Other
with a descriptive message. -/
theorem error_conversion (T : Type) (e : IoError) (re : RecvError) :
    @to_std_io T (flatten (.ok (.error (Error.Io e)))) = .error e ∧
    @to_std_io T (flatten (.error re))
      = .error ⟨ErrorKind.other, Error.fmt (Error.OneshotRecv re)⟩ ∧
    Error.fmt (Error.OneshotRecv re) ≠ "" ∧
    @to_std_io T (flatten (.ok (.error Error.SenderClosed)))
      = .error ⟨ErrorKind.other, "sending channel closed"⟩ := by
  refine ⟨rfl, rfl, ?_, rfl⟩
  cases re
  decide

/-- C4: the writer relay loop always ends with an error; that error is the
distinguished SenderClosed exactly when the pipe was closed by its producer
after every prior chunk was pulled and written successfully, and otherwise
it is an Error::Io wrapping the failing device write or pipe read. -/
theorem writer_termination_taxonomy (dev : List Nat → RustResult Unit IoError)
    (items : List PipeItem) :
    (∃ e : Error, writer dev items = .error e) ∧
    (writer dev items = .error Error.SenderClosed ↔
      writer_accepts_all dev items = true) ∧
    (writer_accepts_all dev items = false →
      ∃ e : IoError, writer dev items = .error (Error.Io e)) := by
  induction items with
  | nil => simp [writer, writer_accepts_all]
  | cons it rest ih =>
    cases it with
    | fail e => simp [writer, writer_accepts_all]
    | chunk data =>
      cases hdev : dev data with
      | error e => simp [writer, writer_accepts_all, hdev]
      | ok u => simpa [writer, writer_accepts_all, hdev] using ih

theorem reader_run_success (pipe : List Nat → RustResult Unit IoError) :
    ∀ (trace : List DevRead) (st : ReaderState),
    st.buffer.length = 1024 →
    (∀ data, DevRead.ok data ∈ trace → data.length ≤ 1024) →
    (∀ data, DevRead.ok data ∈ trace → pipe data = .ok ()) →
    (∀ e, DevRead.err e ∉ trace) →
    ∃ buf : List Nat, buf.length = 1024 ∧
      reader_run pipe st trace = .running ⟨buf, st.forwarded ++ okDatas trace⟩ := by
  intro trace
  induction trace with
  | nil =>
    intro st h1024 _ _ _
    exact ⟨st.buffer, h1024, by simp [reader_run, okDatas]⟩
  | cons ev rest ih =>
    intro st h1024 hlen hacc hnoerr
    cases ev with
    | err e => exact absurd (by simp) (fun h => hnoerr e h)
    | ok data =>
      have hd : data.length ≤ 1024 := hlen data (by simp)
      have hp : pipe data = .ok () := hacc data (by simp)
      have hchunk : (data ++ st.buffer.drop data.length).take data.length = data :=
        List.take_left data (st.buffer.drop data.length)
      have hblen : (data ++ st.buffer.drop data.length).length = 1024 := by
        simp [h1024]
        omega
      have hstep : reader_step pipe st (.ok data)
          = .ok ⟨data ++ st.buffer.drop data.length, st.forwarded ++ [data]⟩ := by
        simp [reader_step, hchunk, hp]
      obtain ⟨buf, hb, hrun⟩ :=
        ih ⟨data ++ st.buffer.drop data.length, st.forwarded ++ [data]⟩ hblen
          (fun d hm => hlen d (by simp [hm]))
          (fun d hm => hacc d (by simp [hm]))
          (fun e hm => hnoerr e (by simp [hm]))
      refine ⟨buf, hb, ?_⟩
      simp only [reader_run, hstep]
      simpa [okDatas, List.append_assoc] using hrun

theorem reader_run_fail_io (pipe : List Nat → RustResult Unit IoError) :
    ∀ (trace : List DevRead) (st : ReaderState) (e : Error) (st2 : ReaderState),
    reader_run pipe st trace = .failed e st2 → ∃ ioe : IoError, e = Error.Io ioe := by
  intro trace
  induction trace with
  | nil =>
    intro st e st2 h
    exact absurd h (by simp [reader_run])
  | cons ev rest ih =>
    intro st e st2 h
    cases ev with
    | err e0 =>
      simp [reader_run, reader_step] at h
      exact ⟨e0, h.1.symm⟩
    | ok data =>
      cases hp : pipe ((data ++ st.buffer.drop data.length).take data.length) with
      | error e0 =>
        simp only [reader_run, reader_step, hp] at h
        simp at h
        exact ⟨e0, h.1.symm⟩
      | ok u =>
        simp only [reader_run, reader_step, hp] at h
        exact ih _ e st2 h

/-- C6: on every iteration the reader relay loop reads into the reusable
1024-byte buffer and forwards into the pipe exactly the prefix buffer[..sz]
of the sz bytes the read reported, no more and no fewer; over a trace with
no device-read error and no pipe rejection the loop is still running with
exactly the read payloads forwarded, and whenever a run of the loop
terminates, its terminal failure wraps the I/O error of the failing device
read or pipe write. -/
theorem reader_relay_loop (pipe : List Nat → RustResult Unit IoError)
    (trace : List DevRead)
    (hlen : ∀ data, DevRead.ok data ∈ trace → data.length ≤ 1024)
    (hacc : ∀ data, DevRead.ok data ∈ trace → pipe data = .ok ())
    (hnoerr : ∀ e, DevRead.err e ∉ trace) :
    (∃ buf : List Nat, buf.length = 1024 ∧
      reader pipe trace = .running ⟨buf, okDatas trace⟩) ∧
    ∀ (pipe2 : List Nat → RustResult Unit IoError) (trace2 : List DevRead)
      (e : Error) (st : ReaderState),
      reader pipe2 trace2 = .failed e st → ∃ ioe : IoError, e = Error.Io ioe := by
  constructor
  · have h := reader_run_success pipe trace
      { buffer := List.replicate 1024 0, forwarded := [] }
      (by show (List.replicate 1024 0).length = 1024; rw [List.length_replicate])
      hlen hacc hnoerr
    exact h
  · intro pipe2 trace2 e st h
    exact reader_run_fail_io pipe2 trace2 _ e st h

/-- Witness for C6 at a concrete input: one successful 3-byte device read,
forwarded whole, with the loop still running. -/
theorem reader_relay_loop_witness :
    ∃ buf : List Nat, buf.length = 1024 ∧
      reader (fun _ => Except.ok ()) [DevRead.ok [1, 2, 3]] =
        .running ⟨buf, [[1, 2, 3]]⟩ :=
  (reader_relay_loop (fun _ => Except.ok ()) [DevRead.ok [1, 2, 3]]
    (by intro data hd; simp at hd; subst hd; decide)
    (by intro data _; rfl)
    (by intro e he; simp at he)).1

theorem reader_run_ok_zero (pipe : List Nat → RustResult Unit IoError)
    (hp : pipe [] = .ok ()) (b : List Nat) :
    ∀ (n : Nat) (f : List (List Nat)),
    reader_run pipe ⟨b, f⟩ (List.replicate n (DevRead.ok [])) =
      .running ⟨b, f ++ List.replicate n []⟩ := by
  intro n
  induction n with
  | zero => intro f; simp [reader_run]
  | succ n ih =>
    intro f
    have hstep : reader_step pipe ⟨b, f⟩ (.ok []) = .ok ⟨b, f ++ [[]]⟩ := by
      simp [reader_step, hp]
    simp only [List.replicate_succ, reader_run, hstep]
    have h2 := ih (f ++ [[]])
    have h3 : f ++ [[]] ++ List.replicate n [] = f ++ [] :: List.replicate n [] := by
      rw [List.append_assoc, List.singleton_append]
    rw [h3] at h2
    exact h2

/-- C10: a device read returning Ok(0) does not terminate the reader loop
and nothing is reported to the facade: each such iteration forwards the
empty chunk into the pipe and the loop continues, so a trace of n Ok(0)
reads leaves the loop running with the buffer untouched and n empty chunks
forwarded. -/
theorem reader_ok_zero_spins (pipe : List Nat → RustResult Unit IoError)
    (n : Nat) (hp : pipe [] = .ok ()) :
    reader pipe (List.replicate n (DevRead.ok [])) =
      .running ⟨List.replicate 1024 0, List.replicate n []⟩ := by
  exact reader_run_ok_zero pipe hp (List.replicate 1024 0) n []

/-- Witness for C10 at a concrete input: three consecutive Ok(0) reads. -/
theorem reader_ok_zero_spins_witness :
    reader (fun _ => Except.ok ()) (List.replicate 3 (DevRead.ok [])) =
      .running ⟨List.replicate 1024 0, List.replicate 3 []⟩ :=
  reader_ok_zero_spins (fun _ => Except.ok ()) 3 rfl

/-- C1, evaluated at the failing input: against the faithful future model,
the first poll_read of a facade whose reader thread delivered
Err(Io(timed out)) returns ready with that error and consumes the future,
and the second poll_read of the same direction panics (none) — the
resolved observation is not cached and not replayed, contradicting the
claimed durable ready-with-error on every subsequent poll. -/
theorem error_durability_panics_on_repoll :
    sampleFailedFutStream.poll_read 5 =
      some (.ready (.error ⟨ErrorKind.timedOut, "device timed out"⟩),
        { sampleFailedFutStream with read_err := OneshotFut.consumed }) ∧
    ({ sampleFailedFutStream with read_err := OneshotFut.consumed } :
      SerialStreamFut).poll_read 5 = none :=
  ⟨rfl, rfl⟩

/-- C2: every facade operation first polls the corresponding relay thread's
termination observation, and delegates to the corresponding facade-side
pipe endpoint exactly when that observation is still pending; when it has
resolved, the operation returns the converted termination result and leaves
the pipe endpoints untouched, so a reported termination error is preferred
over pipe progress. -/
theorem poll_precedence (s : SerialStream) (cap : Nat) (buf : List Nat) :
    (s.read_err = OneshotObs.pending →
      s.poll_read cap = ((s.reader_duplex.poll_read cap).fst,
        { s with reader_duplex := (s.reader_duplex.poll_read cap).snd })) ∧
    (∀ res, s.read_err = OneshotObs.resolved res →
      s.poll_read cap = (.ready (.error (errOf res)), s)) ∧
    (s.write_err = OneshotObs.pending →
      s.poll_write buf = ((s.writer_duplex.poll_write buf).fst,
        { s with writer_duplex := (s.writer_duplex.poll_write buf).snd })) ∧
    (∀ res, s.write_err = OneshotObs.resolved res →
      s.poll_write buf = (.ready (.error (errOf res)), s)) ∧
    (s.write_err = OneshotObs.pending →
      s.poll_flush = (s.writer_duplex.poll_flush.fst,
        { s with writer_duplex := s.writer_duplex.poll_flush.snd })) ∧
    (∀ res, s.write_err = OneshotObs.resolved res →
      s.poll_flush = (.ready (.error (errOf res)), s)) ∧
    (s.write_err = OneshotObs.pending →
      s.poll_shutdown = (s.writer_duplex.poll_shutdown.fst,
        { s with writer_duplex := s.writer_duplex.poll_shutdown.snd })) ∧
    (∀ res, s.write_err = OneshotObs.resolved res →
      s.poll_shutdown = (.ready (.error (errOf res)), s)) := by
  refine ⟨?_, ?_, ?_, ?_, ?_, ?_, ?_, ?_⟩
  · intro h
    simp [SerialStream.poll_read, h, OneshotObs.poll]
  · intro res h
    simp [SerialStream.poll_read, h, OneshotObs.poll, to_std_io_eq_errOf]
  · intro h
    simp [SerialStream.poll_write, h, OneshotObs.poll]
  · intro res h
    simp [SerialStream.poll_write, h, OneshotObs.poll, to_std_io_eq_errOf]
  · intro h
    simp [SerialStream.poll_flush, h, OneshotObs.poll]
  · intro res h
    simp [SerialStream.poll_flush, h, OneshotObs.poll, to_std_io_eq_errOf]
  · intro h
    simp [SerialStream.poll_shutdown, h, OneshotObs.poll]
  · intro res h
    simp [SerialStream.poll_shutdown, h, OneshotObs.poll, to_std_io_eq_errOf]

/-- C3: with pipe capacity c and the device-write consumer stalled, a facade
poll_write of a buffer longer than c accepts exactly c bytes (the first c
bytes, kept in the pipe buffer, none dropped), a further poll_write returns
pending rather than an error, and after the consumer frees k bytes of
capacity a poll_write of a nonempty buffer accepts a positive number of
bytes again. -/
theorem back_pressure (s : SerialStream) (c k : Nat) (buf buf2 buf3 : List Nat)
    (hobs : s.write_err = OneshotObs.pending)
    (hpipe : s.writer_duplex = ⟨c, [], false⟩)
    (hc : 0 < c) (hlen : c < buf.length) (hk : 0 < k) (hkc : k ≤ c)
    (hb3 : buf3 ≠ []) :
    ∃ s1 : SerialStream,
      s.poll_write buf = (.ready (.ok c), s1) ∧
      s1.writer_duplex.buffered = buf.take c ∧
      s1.writer_duplex.capacity = c ∧
      (s1.poll_write buf2).fst = Poll.pending ∧
      ∃ m : Nat, 0 < m ∧
        (({ s1 with writer_duplex := s1.writer_duplex.consume k } :
          SerialStream).poll_write buf3).fst = .ready (.ok m) := by
  have htake : (buf.take c).length = c := by
    rw [List.length_take]
    omega
  have hfirst : PipeWriteSide.poll_write ⟨c, [], false⟩ buf
      = (.ready (.ok c), ⟨c, buf.take c, false⟩) := by
    simp [PipeWriteSide.poll_write, Nat.min_eq_right (Nat.le_of_lt hlen),
      Nat.not_le.mpr hc]
  refine ⟨{ s with writer_duplex := ⟨c, buf.take c, false⟩ }, ?_, rfl, rfl, ?_, ?_⟩
  · simp [SerialStream.poll_write, hobs, OneshotObs.poll, hpipe, hfirst]
  · simp [SerialStream.poll_write, hobs, OneshotObs.poll,
      PipeWriteSide.poll_write, htake]
  · refine ⟨min buf3.length k, ?_, ?_⟩
    · have h3 : 0 < buf3.length := List.length_pos.mpr hb3
      omega
    · have hmin : min c buf.length = c := Nat.min_eq_left (Nat.le_of_lt hlen)
      have hck : ¬ c ≤ c - k := by omega
      have hfree : c - (c - k) = k := by omega
      simp [SerialStream.poll_write, hobs, OneshotObs.poll, PipeWriteSide.consume,
        PipeWriteSide.poll_write, hmin, hck, hfree]

/-- Witness for C3 at a concrete input: capacity 4, a 10-byte write accepts
exactly 4 bytes, the next poll_write is pending, and after the consumer
drains 2 bytes a write of 2 bytes is accepted. -/
theorem back_pressure_witness :
    ∃ s1 : SerialStream,
      sampleLiveStream.poll_write [0, 1, 2, 3, 4, 5, 6, 7, 8, 9] = (.ready (.ok 4), s1) ∧
      s1.writer_duplex.buffered = [0, 1, 2, 3] ∧
      s1.writer_duplex.capacity = 4 ∧
      (s1.poll_write [7]).fst = Poll.pending ∧
      ∃ m : Nat, 0 < m ∧
        (({ s1 with writer_duplex := s1.writer_duplex.consume 2 } :
          SerialStream).poll_write [8, 9]).fst = .ready (.ok m) :=
  back_pressure sampleLiveStream 4 2 [0, 1, 2, 3, 4, 5, 6, 7, 8, 9] [7] [8, 9]
    rfl rfl (by decide) (by decide) (by decide) (by decide) (by decide)

/-- C8: the result of poll_read depends only on the reader's termination
observation and the reader-side pipe endpoint, and the results of
poll_write, poll_flush and poll_shutdown depend only on the writer's
termination observation and the writer-side pipe endpoint; moreover polling
one direction leaves the other direction's components untouched. For any
two facade states agreeing on the polled direction's components, the
returned poll value and that direction's updated components coincide. -/
theorem direction_independence (s1 s2 : SerialStream) (cap : Nat) (buf : List Nat) :
    (s1.read_err = s2.read_err → s1.reader_duplex = s2.reader_duplex →
      (s1.poll_read cap).fst = (s2.poll_read cap).fst ∧
      (s1.poll_read cap).snd.read_err = (s2.poll_read cap).snd.read_err ∧
      (s1.poll_read cap).snd.reader_duplex = (s2.poll_read cap).snd.reader_duplex ∧
      (s1.poll_read cap).snd.write_err = s1.write_err ∧
      (s1.poll_read cap).snd.writer_duplex = s1.writer_duplex) ∧
    (s1.write_err = s2.write_err → s1.writer_duplex = s2.writer_duplex →
      ((s1.poll_write buf).fst = (s2.poll_write buf).fst ∧
        (s1.poll_write buf).snd.write_err = (s2.poll_write buf).snd.write_err ∧
        (s1.poll_write buf).snd.writer_duplex = (s2.poll_write buf).snd.writer_duplex ∧
        (s1.poll_write buf).snd.read_err = s1.read_err ∧
        (s1.poll_write buf).snd.reader_duplex = s1.reader_duplex) ∧
      (s1.poll_flush.fst = s2.poll_flush.fst ∧
        s1.poll_flush.snd.write_err = s2.poll_flush.snd.write_err ∧
        s1.poll_flush.snd.writer_duplex = s2.poll_flush.snd.writer_duplex ∧
        s1.poll_flush.snd.read_err = s1.read_err ∧
        s1.poll_flush.snd.reader_duplex = s1.reader_duplex) ∧
      (s1.poll_shutdown.fst = s2.poll_shutdown.fst ∧
        s1.poll_shutdown.snd.write_err = s2.poll_shutdown.snd.write_err ∧
        s1.poll_shutdown.snd.writer_duplex = s2.poll_shutdown.snd.writer_duplex ∧
        s1.poll_shutdown.snd.read_err = s1.read_err ∧
        s1.poll_shutdown.snd.reader_duplex = s1.reader_duplex)) := by
  constructor
  · intro he hd
    cases hre : s1.read_err with
    | pending =>
      have hre2 : s2.read_err = OneshotObs.pending := he.symm.trans hre
      simp [SerialStream.poll_read, hre, hre2, OneshotObs.poll, hd]
    | resolved res =>
      have hre2 : s2.read_err = OneshotObs.resolved res := he.symm.trans hre
      simp [SerialStream.poll_read, hre, hre2, OneshotObs.poll, hd]
  · intro he hd
    cases hwe : s1.write_err with
    | pending =>
      have hwe2 : s2.write_err = OneshotObs.pending := he.symm.trans hwe
      refine ⟨?_, ?_, ?_⟩ <;>
        simp [SerialStream.poll_write, SerialStream.poll_flush,
          SerialStream.poll_shutdown, hwe, hwe2, OneshotObs.poll, hd]
    | resolved res =>
      have hwe2 : s2.write_err = OneshotObs.resolved res := he.symm.trans hwe
      refine ⟨?_, ?_, ?_⟩ <;>
        simp [SerialStream.poll_write, SerialStream.poll_flush,
          SerialStream.poll_shutdown, hwe, hwe2, OneshotObs.poll, hd]

end KiotoSerial
